import Mathlib

/-!
Shallow embedding of the interactive point-based mask widget of
chips-mania/bag_finder (frontend component ImagePreview together with the
predictMask client in services/api.ts).  Coordinates are rationals; the
widget's five state cells and its event-driven execution (clicks, response
resolution or rejection, the resetSignal effect and the session-change
effect) are modelled as an explicit step function on a component state.
-/

namespace BagFinder

/-- The rectangle inside the container where the image is actually drawn
under contain fit, as computed inline in handleImageClick. -/
structure DisplayBox where
  width : ℚ
  height : ℚ
  offsetX : ℚ
  offsetY : ℚ
  deriving DecidableEq

/-- Contain-fit of an image of intrinsic size imageW x imageH into a
container of size containerW x containerH, translated from the aspect-ratio
branch of handleImageClick: when the image aspect exceeds the container
aspect the width is the constraint and the vertical margin is split in two,
otherwise the height is the constraint and the horizontal margin is split. -/
def fit (containerW containerH imageW imageH : ℚ) : DisplayBox :=
  if imageW / imageH > containerW / containerH then
    { width := containerW
      height := containerW / (imageW / imageH)
      offsetX := 0
      offsetY := (containerH - containerW / (imageW / imageH)) / 2 }
  else
    { width := containerH * (imageW / imageH)
      height := containerH
      offsetX := (containerW - containerH * (imageW / imageH)) / 2
      offsetY := 0 }

/-- Click-to-server coordinate mapping from handleImageClick: the click
position relative to the display box is normalised, scaled to server pixels
and clamped on each axis with max 0 (min server value).  clickX and clickY
are container-relative, the handler having already subtracted rect.left and
rect.top from the client position. -/
def toServerSpace (clickX clickY containerW containerH serverW serverH : ℚ) :
    ℚ × ℚ :=
  let box := fit containerW containerH serverW serverH
  let relativeX := (clickX - box.offsetX) / box.width
  let relativeY := (clickY - box.offsetY) / box.height
  (max 0 (min serverW (relativeX * serverW)),
   max 0 (min serverH (relativeY * serverH)))

/-- Value of the promptMode prop as the parent may supply it: the TypeScript
prop type is add or remove or null, and the prop may also be left out
entirely (undefined). -/
inductive PromptProp where
  | undef
  | nullv
  | add
  | remove
  deriving DecidableEq

/-- JavaScript destructuring default semantics for promptMode: the default
value add applies only when the prop is undefined; an explicit null stays
null. -/
def resolvePrompt : PromptProp → PromptProp
  | PromptProp.undef => PromptProp.add
  | p => p

/-- Label chosen on a click, from the line const label = promptMode ===
remove ? 0 : 1, applied to the already-defaulted promptMode value. -/
def clickLabel (mode : PromptProp) : ℕ :=
  if mode = PromptProp.remove then 0 else 1

/-- PredictResponse from services/api.ts: contour polylines plus the pixel
box (width, height) they are expressed in.  The iou field is never read by
the widget and is omitted. -/
structure PredictResponse where
  contours : List (List (ℚ × ℚ))
  width : ℚ
  height : ℚ
  deriving DecidableEq

/-- The five useState cells of ImagePreview: points, labels, contours,
serverSize (the contour box of the latest applied response, none until a
response has been applied) and isPredicting. -/
structure SessionState where
  points : List (ℚ × ℚ)
  labels : List ℕ
  contours : List (List (ℚ × ℚ))
  serverSize : Option (ℚ × ℚ)
  isPredicting : Bool
  deriving DecidableEq

/-- The widget as a whole: its state cells plus a flag recording whether a
click handler is currently suspended at the await of predictMask (between
setIsPredicting true and the finally block).  The code stores no such flag
explicitly; it is the existence of the pending continuation. -/
structure Component where
  st : SessionState
  inflight : Bool
  deriving DecidableEq

/-- The guard !imageUrl: JavaScript treats null and the empty string as
falsy. -/
def jsFalsy : Option String → Bool
  | none => true
  | some s => s.isEmpty

/-- The UI events that mutate the widget.  A click carries the
container-relative click position, the container size, the server image
size from session.image_info, the promptMode prop and the imageUrl prop as
they stand when the event fires; resolve and reject are the completion of
the outstanding predictMask call; resetSig is the resetSignal effect firing
with a positive signal; sessionChange is the effect on session_id or
imageUrl change. -/
inductive Event where
  | click (clickX clickY containerW containerH serverW serverH : ℚ)
      (mode : PromptProp) (imageUrl : Option String)
  | resolve (resp : PredictResponse)
  | reject (msg : String)
  | resetSig
  | sessionChange
  deriving DecidableEq

/-- Observable outputs of a step: a prediction request issued to the
service with its points and labels payload, or an onError call. -/
inductive Output where
  | request (points : List (ℚ × ℚ)) (labels : List ℕ)
  | errorMsg (msg : String)
  deriving DecidableEq

/-- One UI-thread turn of the widget.  A click runs handleImageClick up to
the await: the isPredicting / imageUrl guard, the coordinate mapping, the
append of the new point and label, setIsPredicting true and the issue of
the request carrying the entire accumulated history.  resolve runs the rest
of the handler on success (setContours and setServerSize from the response,
then the finally block); reject runs the catch (onError) and the finally
block.  resetSig and sessionChange clear points, labels, contours and
serverSize; neither touches isPredicting nor the outstanding request. -/
def step (c : Component) : Event → Component × List Output
  | Event.click cx cy cw ch sw sh mode imageUrl =>
    if c.st.isPredicting || jsFalsy imageUrl then (c, [])
    else
      let p := toServerSpace cx cy cw ch sw sh
      let newPoints := c.st.points ++ [p]
      let newLabels := c.st.labels ++ [clickLabel (resolvePrompt mode)]
      let st1 : SessionState :=
        { c.st with
            points := newPoints
            labels := newLabels
            isPredicting := true }
      ({ st := st1, inflight := true },
       [Output.request newPoints newLabels])
  | Event.resolve resp =>
    if c.inflight then
      let st1 : SessionState :=
        { c.st with
            contours := resp.contours
            serverSize := some (resp.width, resp.height)
            isPredicting := false }
      ({ st := st1, inflight := false }, [])
    else (c, [])
  | Event.reject msg =>
    if c.inflight then
      ({ st := { c.st with isPredicting := false }, inflight := false },
       [Output.errorMsg msg])
    else (c, [])
  | Event.resetSig =>
    let st1 : SessionState :=
      { c.st with
          points := []
          labels := []
          contours := []
          serverSize := none }
    ({ c with st := st1 }, [])
  | Event.sessionChange =>
    let st1 : SessionState :=
      { c.st with
          points := []
          labels := []
          contours := []
          serverSize := none }
    ({ c with st := st1 }, [])

/-- The widget as mounted: all cells empty, nothing in flight. -/
def initComponent : Component :=
  { st := { points := [], labels := [], contours := [], serverSize := none,
            isPredicting := false },
    inflight := false }

/-- Run a sequence of events from a given component state. -/
def runFrom (c : Component) : List Event → Component
  | [] => c
  | e :: es => runFrom (step c e).1 es

/-- Run a sequence of events from the mounted widget. -/
def run (es : List Event) : Component := runFrom initComponent es

/-- All outputs emitted while running a sequence of events from a given
component state. -/
def outputsFrom (c : Component) : List Event → List Output
  | [] => []
  | e :: es => (step c e).2 ++ outputsFrom (step c e).1 es

/-- All outputs emitted while running a sequence of events from the mounted
widget. -/
def outputs (es : List Event) : List Output := outputsFrom initComponent es

/-- Contribution of one event to the count of accepted clicks: 1 for a
click that passes the isPredicting / imageUrl guard in the given state, 0
otherwise. -/
def clickInc (c : Component) : Event → ℕ
  | Event.click _ _ _ _ _ _ _ u =>
    if c.st.isPredicting || jsFalsy u then 0 else 1
  | Event.resolve _ => 0
  | Event.reject _ => 0
  | Event.resetSig => 0
  | Event.sessionChange => 0

/-- Number of clicks along a run that pass the isPredicting / imageUrl
guard, each counted in the state in which it fires. -/
def acceptedFrom (c : Component) : List Event → ℕ
  | [] => 0
  | e :: es => clickInc c e + acceptedFrom (step c e).1 es

/-- Events that clear the accumulated history: the resetSignal effect and
the session or imageUrl change effect. -/
def isResetEvent : Event → Bool
  | Event.resetSig => true
  | Event.sessionChange => true
  | _ => false

/-- Uniform scale applied by the contour overlay.  The overlay is an svg
element spanning the whole container with viewBox 0 0 boxW boxH taken from
serverSize and preserveAspectRatio xMidYMid meet; under meet semantics the
viewBox is scaled uniformly by the smaller of the two axis ratios. -/
def svgMeetScale (containerW containerH boxW boxH : ℚ) : ℚ :=
  min (containerW / boxW) (containerH / boxH)

/-- Display position of a polygon point drawn by the contour overlay: with
xMidYMid the scaled viewBox is centred in the container on both axes, so a
point of the contour box maps to the centring offset plus the point scaled
by the meet scale. -/
def renderPoint (containerW containerH boxW boxH px py : ℚ) : ℚ × ℚ :=
  ((containerW - boxW * svgMeetScale containerW containerH boxW boxH) / 2
      + px * svgMeetScale containerW containerH boxW boxH,
   (containerH - boxH * svgMeetScale containerW containerH boxW boxH) / 2
      + py * svgMeetScale containerW containerH boxW boxH)

/-- C5: coordinate mapping is deterministic and clamped.  With container
800x400 and a 400x400 server image a click at (200,0) maps to (0,0), a click
at (600,400) maps to (400,400), a click at (-50,-50) maps to (0,0); and for
any inputs with nonnegative server dimensions the produced coordinates lie
in the box from (0,0) to (serverW, serverH). -/
theorem coordinate_mapping_clamped :
    toServerSpace 200 0 800 400 400 400 = (0, 0) ∧
    toServerSpace 600 400 800 400 400 400 = (400, 400) ∧
    toServerSpace (-50) (-50) 800 400 400 400 = (0, 0) ∧
    (∀ cx cy cw ch sw sh : ℚ, 0 ≤ sw → 0 ≤ sh →
      0 ≤ (toServerSpace cx cy cw ch sw sh).1 ∧
      (toServerSpace cx cy cw ch sw sh).1 ≤ sw ∧
      0 ≤ (toServerSpace cx cy cw ch sw sh).2 ∧
      (toServerSpace cx cy cw ch sw sh).2 ≤ sh) := by
  refine ⟨by norm_num [toServerSpace, fit, min_def, max_def, Prod.ext_iff],
    by norm_num [toServerSpace, fit, min_def, max_def, Prod.ext_iff],
    by norm_num [toServerSpace, fit, min_def, max_def, Prod.ext_iff], ?_⟩
  intro cx cy cw ch sw sh hsw hsh
  simp only [toServerSpace]
  refine ⟨le_max_left _ _, max_le hsw (min_le_left _ _),
    le_max_left _ _, max_le hsh (min_le_left _ _)⟩

/-- C5 witness: the universally quantified clamping part evaluated at a
concrete out-of-range click. -/
theorem coordinate_mapping_clamped_witness :
    (0:ℚ) ≤ 400 ∧
    (0 ≤ (toServerSpace 9000 (-3) 800 400 400 400).1 ∧
      (toServerSpace 9000 (-3) 800 400 400 400).1 ≤ 400 ∧
      0 ≤ (toServerSpace 9000 (-3) 800 400 400 400).2 ∧
      (toServerSpace 9000 (-3) 800 400 400 400).2 ≤ 400) :=
  ⟨by norm_num,
    coordinate_mapping_clamped.2.2.2 9000 (-3) 800 400 400 400
      (by norm_num) (by norm_num)⟩

/-- Evaluation fact for concrete executions: a nonempty image url is not
falsy. -/
lemma jsFalsy_img : jsFalsy (some "img") = false := rfl

/-- A left-out promptMode prop defaults to add, hence foreground label 1. -/
lemma clickLabel_resolve_undef :
    clickLabel (resolvePrompt PromptProp.undef) = 1 := rfl

/-- A null promptMode prop stays null and still yields foreground label 1. -/
lemma clickLabel_resolve_nullv :
    clickLabel (resolvePrompt PromptProp.nullv) = 1 := rfl

/-- The remove mode yields background label 0. -/
lemma clickLabel_resolve_remove :
    clickLabel (resolvePrompt PromptProp.remove) = 0 := rfl

/-- Every click label is 0 or 1. -/
lemma clickLabel_zero_or_one (m : PromptProp) :
    clickLabel m = 0 ∨ clickLabel m = 1 := by
  unfold clickLabel
  split <;> simp

/-- A step preserves equality of the point and label list lengths. -/
lemma step_len_eq (c : Component) (e : Event)
    (h : c.st.points.length = c.st.labels.length) :
    ((step c e).1).st.points.length = ((step c e).1).st.labels.length := by
  cases e with
  | click cx cy cw ch sw sh m u =>
    simp only [step]
    split
    · exact h
    · simp [h]
  | resolve r =>
    simp only [step]
    split <;> simp [h]
  | reject m =>
    simp only [step]
    split <;> simp [h]
  | resetSig => simp [step]
  | sessionChange => simp [step]

/-- A run preserves equality of the point and label list lengths. -/
lemma runFrom_len_eq (es : List Event) : ∀ c : Component,
    c.st.points.length = c.st.labels.length →
    (runFrom c es).st.points.length = (runFrom c es).st.labels.length := by
  induction es with
  | nil => intro c h; simpa [runFrom] using h
  | cons e es ih =>
    intro c h
    simpa [runFrom] using ih (step c e).1 (step_len_eq c e h)

/-- A step keeps the label list binary. -/
lemma step_labels_binary (c : Component) (e : Event)
    (h : ∀ l ∈ c.st.labels, l = 0 ∨ l = 1) :
    ∀ l ∈ ((step c e).1).st.labels, l = 0 ∨ l = 1 := by
  cases e with
  | click cx cy cw ch sw sh m u =>
    simp only [step]
    split
    · exact h
    · intro l hl
      rcases (by simpa using hl : l ∈ c.st.labels ∨
          l = clickLabel (resolvePrompt m)) with h1 | h1
      · exact h l h1
      · rw [h1]
        exact clickLabel_zero_or_one _
  | resolve r =>
    simp only [step]
    split <;> simpa using h
  | reject m =>
    simp only [step]
    split <;> simpa using h
  | resetSig => simp [step]
  | sessionChange => simp [step]

/-- A run keeps the label list binary. -/
lemma runFrom_labels_binary (es : List Event) : ∀ c : Component,
    (∀ l ∈ c.st.labels, l = 0 ∨ l = 1) →
    ∀ l ∈ (runFrom c es).st.labels, l = 0 ∨ l = 1 := by
  induction es with
  | nil => intro c h; simpa [runFrom] using h
  | cons e es ih =>
    intro c h
    simpa [runFrom] using ih (step c e).1 (step_labels_binary c e h)

/-- A step preserves the property that a nonempty contour list comes with a
recorded server size. -/
lemma step_contours_box (c : Component) (e : Event)
    (h : c.st.contours ≠ [] → c.st.serverSize.isSome = true) :
    ((step c e).1).st.contours ≠ [] →
      ((step c e).1).st.serverSize.isSome = true := by
  cases e with
  | click cx cy cw ch sw sh m u =>
    simp only [step]
    split
    · exact h
    · simpa using h
  | resolve r =>
    simp only [step]
    split
    · simp
    · simpa using h
  | reject m =>
    simp only [step]
    split <;> simpa using h
  | resetSig => simp [step]
  | sessionChange => simp [step]

/-- A run preserves the property that a nonempty contour list comes with a
recorded server size. -/
lemma runFrom_contours_box (es : List Event) : ∀ c : Component,
    (c.st.contours ≠ [] → c.st.serverSize.isSome = true) →
    ((runFrom c es).st.contours ≠ [] →
      (runFrom c es).st.serverSize.isSome = true) := by
  induction es with
  | nil => intro c h; simpa [runFrom] using h
  | cons e es ih =>
    intro c h
    simpa [runFrom] using ih (step c e).1 (step_contours_box c e h)

/-- A step keeps the continuation flag equal to the isPredicting cell. -/
lemma step_inflight_pred (c : Component) (e : Event)
    (h : c.inflight = c.st.isPredicting) :
    ((step c e).1).inflight = ((step c e).1).st.isPredicting := by
  cases e with
  | click cx cy cw ch sw sh m u =>
    simp only [step]
    split
    · exact h
    · simp
  | resolve r =>
    simp only [step]
    split <;> simp [h]
  | reject m =>
    simp only [step]
    split <;> simp [h]
  | resetSig => simpa [step] using h
  | sessionChange => simpa [step] using h

/-- A run keeps the continuation flag equal to the isPredicting cell. -/
lemma runFrom_inflight_pred (es : List Event) : ∀ c : Component,
    c.inflight = c.st.isPredicting →
    (runFrom c es).inflight = (runFrom c es).st.isPredicting := by
  induction es with
  | nil => intro c h; simpa [runFrom] using h
  | cons e es ih =>
    intro c h
    simpa [runFrom] using ih (step c e).1 (step_inflight_pred c e h)

/-- Along a run without reset or session-change events, both history
lengths grow by exactly the number of accepted clicks. -/
lemma runFrom_len_counts (es : List Event) : ∀ c : Component,
    (∀ e ∈ es, isResetEvent e = false) →
    (runFrom c es).st.points.length
        = c.st.points.length + acceptedFrom c es ∧
    (runFrom c es).st.labels.length
        = c.st.labels.length + acceptedFrom c es := by
  induction es with
  | nil => intro c _; simp [runFrom, acceptedFrom]
  | cons e es ih =>
    intro c h
    have h2 : ∀ x ∈ es, isResetEvent x = false :=
      fun x hx => h x (List.mem_cons_of_mem _ hx)
    have hrec := ih (step c e).1 h2
    cases e with
    | click cx cy cw ch sw sh m u =>
      by_cases hg : (c.st.isPredicting || jsFalsy u) = true
      · have hstep : step c (Event.click cx cy cw ch sw sh m u) = (c, []) := by
          simp [step, hg]
        rw [runFrom, acceptedFrom]
        rw [hstep] at hrec ⊢
        simpa [clickInc, hg] using hrec
      · have hg' : (c.st.isPredicting || jsFalsy u) = false := by
          simpa using hg
        rw [runFrom, acceptedFrom]
        constructor
        · rw [hrec.1]
          simp [step, clickInc, hg', Nat.add_assoc, Nat.add_comm 1]
        · rw [hrec.2]
          simp [step, clickInc, hg', Nat.add_assoc, Nat.add_comm 1]
    | resolve r =>
      rw [runFrom, acceptedFrom]
      rcases hrec with ⟨h1, h2'⟩
      rw [h1, h2']
      by_cases hf : c.inflight = true <;> simp [step, clickInc, hf]
    | reject m =>
      rw [runFrom, acceptedFrom]
      rcases hrec with ⟨h1, h2'⟩
      rw [h1, h2']
      by_cases hf : c.inflight = true <;> simp [step, clickInc, hf]
    | resetSig => simpa [isResetEvent] using h Event.resetSig (by simp)
    | sessionChange =>
      simpa [isResetEvent] using h Event.sessionChange (by simp)

/-- Every request emitted along a run from a state with aligned history
carries points and labels lists of equal length. -/
lemma outputsFrom_request_aligned (es : List Event) : ∀ c : Component,
    c.st.points.length = c.st.labels.length →
    ∀ (ps : List (ℚ × ℚ)) (ls : List ℕ),
      Output.request ps ls ∈ outputsFrom c es → ps.length = ls.length := by
  induction es with
  | nil => intro c _ ps ls hmem; simp [outputsFrom] at hmem
  | cons e es ih =>
    intro c hc ps ls hmem
    rw [outputsFrom] at hmem
    rcases List.mem_append.1 hmem with hm | hm
    · cases e with
      | click cx cy cw ch sw sh m u =>
        by_cases hg : (c.st.isPredicting || jsFalsy u) = true
        · simp [step, hg] at hm
        · have hg' : (c.st.isPredicting || jsFalsy u) = false := by
            simpa using hg
          simp only [step, hg'] at hm
          rcases (by simpa using hm :
              ps = c.st.points ++ [toServerSpace cx cy cw ch sw sh] ∧
              ls = c.st.labels ++ [clickLabel (resolvePrompt m)]) with ⟨h1, h2⟩
          rw [h1, h2]
          simp [hc]
      | resolve r =>
        by_cases hf : c.inflight = true <;> simp [step, hf] at hm
      | reject m =>
        by_cases hf : c.inflight = true <;> simp [step, hf] at hm
      | resetSig => simp [step] at hm
      | sessionChange => simp [step] at hm
    · exact ih (step c e).1 (step_len_eq c e hc) ps ls hm

/-- C1: the claim says a response whose epoch does not match the current
epoch is discarded, so that after a reset the completion of an in-flight
request does not modify contours or contourBox.  The code carries no epoch:
handleImageClick applies setContours and setServerSize unconditionally when
the awaited call resolves.  Evaluating the failing execution: an accepted
click issues a request, the resetSignal effect clears contours, and the
resolution of the still-outstanding request then repopulates contours and
serverSize. -/
theorem stale_response_repopulates_contours :
    (run [Event.click 300 200 800 400 400 400 PromptProp.undef (some "img"),
          Event.resetSig]).st.contours = [] ∧
    (run [Event.click 300 200 800 400 400 400 PromptProp.undef (some "img"),
          Event.resetSig,
          Event.resolve
            { contours := [[(1, 1), (2, 2), (3, 3)]],
              width := 400, height := 400 }]).st.contours
        = [[(1, 1), (2, 2), (3, 3)]] ∧
    (run [Event.click 300 200 800 400 400 400 PromptProp.undef (some "img"),
          Event.resetSig,
          Event.resolve
            { contours := [[(1, 1), (2, 2), (3, 3)]],
              width := 400, height := 400 }]).st.serverSize
        = some (400, 400) := by
  norm_num [run, runFrom, step, initComponent, jsFalsy_img,
    clickLabel_resolve_undef, toServerSpace, fit, min_def, max_def]

/-- C2: a click arriving while pending is a complete no-op: the state is
unchanged and no request is issued; moreover in every reachable state the
outstanding-request flag coincides with isPredicting, so at most one
request is outstanding at any time. -/
theorem click_noop_when_pending :
    (∀ (c : Component) (cx cy cw ch sw sh : ℚ) (m : PromptProp)
        (u : Option String), c.st.isPredicting = true →
        step c (Event.click cx cy cw ch sw sh m u) = (c, [])) ∧
    (∀ es : List Event, (run es).inflight = (run es).st.isPredicting) := by
  constructor
  · intro c cx cy cw ch sw sh m u h
    simp [step, h]
  · intro es
    exact runFrom_inflight_pred es initComponent rfl

/-- C2 witness: after one accepted click the widget is pending, and a click
fired in that very state is the identity and emits nothing. -/
theorem click_noop_when_pending_witness :
    (run [Event.click 300 200 800 400 400 400
        PromptProp.undef (some "img")]).st.isPredicting = true ∧
    step (run [Event.click 300 200 800 400 400 400
        PromptProp.undef (some "img")])
        (Event.click 10 10 800 400 400 400 PromptProp.undef (some "img"))
      = (run [Event.click 300 200 800 400 400 400
          PromptProp.undef (some "img")], []) := by
  have hp : (run [Event.click 300 200 800 400 400 400
      PromptProp.undef (some "img")]).st.isPredicting = true := by
    norm_num [run, runFrom, step, initComponent, jsFalsy_img]
  exact ⟨hp, click_noop_when_pending.1 _ 10 10 800 400 400 400
    PromptProp.undef (some "img") hp⟩

/-- C3 counterexample: the resetSignal effect does not touch isPredicting.
From the reachable state in which one click is in flight, reset leaves
pending still true, refuting the claim that reset yields pending == false
from any prior state. -/
theorem reset_leaves_pending_set :
    ((step (run [Event.click 300 200 800 400 400 400
        PromptProp.undef (some "img")]) Event.resetSig).1).st.isPredicting
      = true := by
  norm_num [run, runFrom, step, initComponent, jsFalsy_img]

/-- C3 amended: from any prior state, reset yields empty points and labels,
empty contours and a cleared contourBox, while pending is left unchanged
(it is cleared only when the in-flight request itself completes). -/
theorem reset_clears_history_and_contours (c : Component) :
    ((step c Event.resetSig).1).st.points = [] ∧
    ((step c Event.resetSig).1).st.labels = [] ∧
    ((step c Event.resetSig).1).st.contours = [] ∧
    ((step c Event.resetSig).1).st.serverSize = none ∧
    ((step c Event.resetSig).1).st.isPredicting = c.st.isPredicting := by
  simp [step]

/-- C4: when the prediction call fails, the catch and finally blocks clear
pending, surface exactly one error message, and leave contours and
contourBox unchanged; the point and label appended by the triggering click
stay in the history (no rollback). -/
theorem failure_clears_pending_no_rollback (c : Component)
    (cx cy cw ch sw sh : ℚ) (m : PromptProp) (u : Option String)
    (msg : String) (hp : c.st.isPredicting = false)
    (hu : jsFalsy u = false) :
    ((step (step c (Event.click cx cy cw ch sw sh m u)).1
        (Event.reject msg)).1).st.points
      = c.st.points ++ [toServerSpace cx cy cw ch sw sh] ∧
    ((step (step c (Event.click cx cy cw ch sw sh m u)).1
        (Event.reject msg)).1).st.labels
      = c.st.labels ++ [clickLabel (resolvePrompt m)] ∧
    ((step (step c (Event.click cx cy cw ch sw sh m u)).1
        (Event.reject msg)).1).st.contours = c.st.contours ∧
    ((step (step c (Event.click cx cy cw ch sw sh m u)).1
        (Event.reject msg)).1).st.serverSize = c.st.serverSize ∧
    ((step (step c (Event.click cx cy cw ch sw sh m u)).1
        (Event.reject msg)).1).st.isPredicting = false ∧
    (step (step c (Event.click cx cy cw ch sw sh m u)).1
        (Event.reject msg)).2 = [Output.errorMsg msg] := by
  simp [step, hp, hu]

/-- C4 witness: the failure path evaluated from the mounted widget at a
concrete click. -/
theorem failure_clears_pending_no_rollback_witness :
    initComponent.st.isPredicting = false ∧
    jsFalsy (some "img") = false ∧
    (((step (step initComponent (Event.click 300 200 800 400 400 400
          PromptProp.undef (some "img"))).1 (Event.reject "boom")).1).st.points
        = initComponent.st.points ++ [toServerSpace 300 200 800 400 400 400] ∧
      ((step (step initComponent (Event.click 300 200 800 400 400 400
          PromptProp.undef (some "img"))).1 (Event.reject "boom")).1).st.labels
        = initComponent.st.labels
            ++ [clickLabel (resolvePrompt PromptProp.undef)] ∧
      ((step (step initComponent (Event.click 300 200 800 400 400 400
          PromptProp.undef (some "img"))).1 (Event.reject "boom")).1).st.contours
        = initComponent.st.contours ∧
      ((step (step initComponent (Event.click 300 200 800 400 400 400
          PromptProp.undef (some "img"))).1
          (Event.reject "boom")).1).st.serverSize
        = initComponent.st.serverSize ∧
      ((step (step initComponent (Event.click 300 200 800 400 400 400
          PromptProp.undef (some "img"))).1
          (Event.reject "boom")).1).st.isPredicting = false ∧
      (step (step initComponent (Event.click 300 200 800 400 400 400
          PromptProp.undef (some "img"))).1 (Event.reject "boom")).2
        = [Output.errorMsg "boom"]) :=
  ⟨rfl, rfl, failure_clears_pending_no_rollback initComponent
    300 200 800 400 400 400 PromptProp.undef (some "img") "boom" rfl rfl⟩

/-- C9: when the imageUrl prop is null, a click is a complete no-op even
with pending false: the state is unchanged and no request is issued. -/
theorem click_noop_without_image (c : Component) (cx cy cw ch sw sh : ℚ)
    (m : PromptProp) :
    step c (Event.click cx cy cw ch sw sh m none) = (c, []) := by
  simp [step, jsFalsy]

/-- C6: in every reachable state the point and label lists have equal
length, and along any run without reset or session-change events both
lengths equal exactly the number of accepted clicks. -/
theorem history_parallel_invariant :
    (∀ es : List Event,
      (run es).st.points.length = (run es).st.labels.length) ∧
    (∀ es : List Event, (∀ e ∈ es, isResetEvent e = false) →
      (run es).st.points.length = acceptedFrom initComponent es ∧
      (run es).st.labels.length = acceptedFrom initComponent es) := by
  constructor
  · intro es
    exact runFrom_len_eq es initComponent rfl
  · intro es h
    have hc := runFrom_len_counts es initComponent h
    simpa [initComponent] using hc

/-- C6 witness: a reset-free run with two accepted clicks, one rejected
click while pending and one resolution. -/
theorem history_parallel_invariant_witness :
    (∀ e ∈ [Event.click 300 200 800 400 400 400
          PromptProp.undef (some "img"),
        Event.click 10 10 800 400 400 400 PromptProp.undef (some "img"),
        Event.resolve { contours := [[(1, 1)]], width := 400, height := 400 },
        Event.click 400 100 800 400 400 400
          PromptProp.remove (some "img")], isResetEvent e = false) ∧
    ((run [Event.click 300 200 800 400 400 400
          PromptProp.undef (some "img"),
        Event.click 10 10 800 400 400 400 PromptProp.undef (some "img"),
        Event.resolve { contours := [[(1, 1)]], width := 400, height := 400 },
        Event.click 400 100 800 400 400 400
          PromptProp.remove (some "img")]).st.points.length
      = acceptedFrom initComponent
          [Event.click 300 200 800 400 400 400
            PromptProp.undef (some "img"),
          Event.click 10 10 800 400 400 400 PromptProp.undef (some "img"),
          Event.resolve { contours := [[(1, 1)]], width := 400, height := 400 },
          Event.click 400 100 800 400 400 400
            PromptProp.remove (some "img")] ∧
     (run [Event.click 300 200 800 400 400 400
          PromptProp.undef (some "img"),
        Event.click 10 10 800 400 400 400 PromptProp.undef (some "img"),
        Event.resolve { contours := [[(1, 1)]], width := 400, height := 400 },
        Event.click 400 100 800 400 400 400
          PromptProp.remove (some "img")]).st.labels.length
      = acceptedFrom initComponent
          [Event.click 300 200 800 400 400 400
            PromptProp.undef (some "img"),
          Event.click 10 10 800 400 400 400 PromptProp.undef (some "img"),
          Event.resolve { contours := [[(1, 1)]], width := 400, height := 400 },
          Event.click 400 100 800 400 400 400
            PromptProp.remove (some "img")]) := by
  have h : ∀ e ∈ [Event.click 300 200 800 400 400 400
        PromptProp.undef (some "img"),
      Event.click 10 10 800 400 400 400 PromptProp.undef (some "img"),
      Event.resolve { contours := [[(1, 1)]], width := 400, height := 400 },
      Event.click 400 100 800 400 400 400
        PromptProp.remove (some "img")], isResetEvent e = false := by
    intro e he
    simp only [List.mem_cons, List.not_mem_nil, or_false] at he
    rcases he with rfl | rfl | rfl | rfl <;> simp [isResetEvent]
  exact ⟨h, history_parallel_invariant.2 _ h⟩

/-- C7 counterexample: a successful response whose contour list is empty
sets serverSize while contours stays empty, so the reachable state after an
accepted click and such a resolution has the contour box present with no
contours, refuting that both are always empty or present together. -/
theorem empty_contours_response_sets_box :
    (run [Event.click 300 200 800 400 400 400 PromptProp.undef (some "img"),
          Event.resolve { contours := [], width := 400, height := 400 }
        ]).st.contours = [] ∧
    (run [Event.click 300 200 800 400 400 400 PromptProp.undef (some "img"),
          Event.resolve { contours := [], width := 400, height := 400 }
        ]).st.serverSize = some (400, 400) := by
  norm_num [run, runFrom, step, initComponent, jsFalsy_img,
    clickLabel_resolve_undef, toServerSpace, fit, min_def, max_def]

/-- C7 amended: one direction of the claim holds in every reachable state:
whenever contours is nonempty the contour box is present.  The converse
fails (see the counterexample); the overlay guards on both being present
before drawing. -/
theorem contours_nonempty_implies_box (es : List Event)
    (h : (run es).st.contours ≠ []) :
    (run es).st.serverSize.isSome = true := by
  exact runFrom_contours_box es initComponent (by simp [initComponent]) h

/-- C7 witness: a run whose resolution carries one contour, where the box
is then present. -/
theorem contours_nonempty_implies_box_witness :
    (run [Event.click 300 200 800 400 400 400 PromptProp.undef (some "img"),
          Event.resolve { contours := [[(1, 1)]], width := 400, height := 400 }
        ]).st.contours ≠ [] ∧
    (run [Event.click 300 200 800 400 400 400 PromptProp.undef (some "img"),
          Event.resolve { contours := [[(1, 1)]], width := 400, height := 400 }
        ]).st.serverSize.isSome = true := by
  have h : (run [Event.click 300 200 800 400 400 400
      PromptProp.undef (some "img"),
      Event.resolve { contours := [[(1, 1)]], width := 400, height := 400 }
    ]).st.contours ≠ [] := by
    norm_num [run, runFrom, step, initComponent, jsFalsy_img,
      clickLabel_resolve_undef, toServerSpace, fit, min_def, max_def]
  exact ⟨h, contours_nonempty_implies_box _ h⟩

/-- C10: the label appended by an accepted click is 0 exactly when the
promptMode prop is remove (undefined defaults to add and an explicit null
also yields 1); every label ever stored is 0 or 1; and every request
payload carries points and labels lists of equal length, positionally
aligned. -/
theorem labels_binary_and_aligned :
    (∀ m : PromptProp,
      (clickLabel (resolvePrompt m) = 0 ↔ m = PromptProp.remove)) ∧
    (∀ (es : List Event) (l : ℕ),
      l ∈ (run es).st.labels → l = 0 ∨ l = 1) ∧
    (∀ (es : List Event) (ps : List (ℚ × ℚ)) (ls : List ℕ),
      Output.request ps ls ∈ outputs es → ps.length = ls.length) := by
  refine ⟨?_, ?_, ?_⟩
  · intro m
    cases m <;> simp [clickLabel, resolvePrompt]
  · intro es l hl
    exact runFrom_labels_binary es initComponent
      (by simp [initComponent]) l hl
  · intro es ps ls hmem
    exact outputsFrom_request_aligned es initComponent rfl ps ls hmem

/-- C10 witness: one accepted click with a left-out promptMode stores label
1 and issues a request whose payload lists are aligned. -/
theorem labels_binary_and_aligned_witness :
    (1 ∈ (run [Event.click 300 200 800 400 400 400
        PromptProp.undef (some "img")]).st.labels ∧
      ((1 : ℕ) = 0 ∨ (1 : ℕ) = 1)) ∧
    (Output.request [((100 : ℚ), (200 : ℚ))] [1]
        ∈ outputs [Event.click 300 200 800 400 400 400
          PromptProp.undef (some "img")] ∧
      ([((100 : ℚ), (200 : ℚ))].length = [(1 : ℕ)].length)) := by
  have hm : 1 ∈ (run [Event.click 300 200 800 400 400 400
      PromptProp.undef (some "img")]).st.labels := by
    norm_num [run, runFrom, step, initComponent, jsFalsy_img,
      clickLabel_resolve_undef, toServerSpace, fit, min_def, max_def]
  have ho : Output.request [((100 : ℚ), (200 : ℚ))] [1]
      ∈ outputs [Event.click 300 200 800 400 400 400
        PromptProp.undef (some "img")] := by
    norm_num [outputs, outputsFrom, step, initComponent, jsFalsy_img,
      clickLabel_resolve_undef, toServerSpace, fit, min_def, max_def]
  exact ⟨⟨hm, labels_binary_and_aligned.2.1 _ 1 hm⟩,
    ⟨ho, labels_binary_and_aligned.2.2 _ _ _ ho⟩⟩

/-- C8: the overlay realises exactly the scaling contract of the spec: for
positive container and contour box dimensions a contour point (px, py) is
drawn at displayBox.offsetX + px * displayBox.width / boxW and likewise on
the y axis, where displayBox is the contain fit of the contour box into the
container; in particular with contour box 500x500 fitted to the display box
250x250 at offsets 0,0, the contour point (500,500) renders at (250,250). -/
theorem render_scales_to_display_box :
    (∀ cw ch bw bh px py : ℚ, 0 < cw → 0 < ch → 0 < bw → 0 < bh →
      renderPoint cw ch bw bh px py =
        ((fit cw ch bw bh).offsetX + px * (fit cw ch bw bh).width / bw,
         (fit cw ch bw bh).offsetY + py * (fit cw ch bw bh).height / bh)) ∧
    renderPoint 250 250 500 500 500 500 = (250, 250) ∧
    fit 250 250 500 500 =
      { width := 250, height := 250, offsetX := 0, offsetY := 0 } := by
  refine ⟨?_, by norm_num [renderPoint, svgMeetScale, min_def],
    by norm_num [fit]⟩
  intro cw ch bw bh px py hcw hch hbw hbh
  have hbw' : bw ≠ 0 := ne_of_gt hbw
  have hbh' : bh ≠ 0 := ne_of_gt hbh
  by_cases h : bw / bh > cw / ch
  · have h1 : cw * bh < bw * ch := (div_lt_div_iff₀ hch hbh).1 h
    have h2 : cw / bw < ch / bh := by
      rw [div_lt_div_iff₀ hbw hbh]
      nlinarith
    have hmin : svgMeetScale cw ch bw bh = cw / bw := min_eq_left h2.le
    have hfit : fit cw ch bw bh =
        { width := cw, height := cw / (bw / bh), offsetX := 0,
          offsetY := (ch - cw / (bw / bh)) / 2 } := by
      simp only [fit]
      rw [if_pos h]
    rw [hfit]
    simp only [renderPoint, hmin]
    rw [Prod.mk.injEq]
    constructor
    · field_simp
    · field_simp
      ring
  · have h1 : bw * ch ≤ cw * bh := by
      have := le_of_not_lt h
      rw [div_le_div_iff₀ hbh hch] at this
      linarith
    have h2 : ch / bh ≤ cw / bw := by
      rw [div_le_div_iff₀ hbh hbw]
      nlinarith
    have hmin : svgMeetScale cw ch bw bh = ch / bh := min_eq_right h2
    have hfit : fit cw ch bw bh =
        { width := ch * (bw / bh), height := ch,
          offsetX := (cw - ch * (bw / bh)) / 2, offsetY := 0 } := by
      simp only [fit]
      rw [if_neg h]
    rw [hfit]
    simp only [renderPoint, hmin]
    rw [Prod.mk.injEq]
    constructor
    · field_simp
      ring
    · field_simp

/-- C8 witness: the scaling contract instantiated at the concrete response
of the claim. -/
theorem render_scales_to_display_box_witness :
    ((0 : ℚ) < 250 ∧ (0 : ℚ) < 500) ∧
    renderPoint 250 250 500 500 500 500 =
      ((fit 250 250 500 500).offsetX
          + 500 * (fit 250 250 500 500).width / 500,
       (fit 250 250 500 500).offsetY
          + 500 * (fit 250 250 500 500).height / 500) :=
  ⟨⟨by norm_num, by norm_num⟩,
    render_scales_to_display_box.1 250 250 500 500 500 500
      (by norm_num) (by norm_num) (by norm_num) (by norm_num)⟩

end BagFinder
